import Mathlib

/-!
# EZpoker: the recommendation engine of `src/gto-solver.js`

A shallow embedding of the class `GTOSolver`, and of the card-input formatter
`formatCardInput` of `src/renderer/renderer.js`, with a verification of the
properties their specification states about them.

Conventions of the embedding.

* JavaScript strings are Lean `String`s, processed through their list of
  characters. The source only ever tests characters of the Basic
  Multilingual Plane (`A`, `K`, `Q`, the rank and suit classes, the four suit
  symbols), so reading a string by code points or by UTF-16 code units gives
  the same answers.
* An object literal is an association list of its own keys, in source order.
  A property read `obj[k]` first looks `k` up among the own keys and then
  along the prototype chain: every object literal inherits the members of
  `Object.prototype`, whose names are listed in `objectPrototypeKeys`.
* The numbers in the frequency tables are integer literals and are kept as
  `Int`; the strengths and thresholds of the postflop path are the decimal
  literals of the source, kept as exact rationals.
* A call either returns a value or throws; `Outcome` records which.
-/

namespace EZpoker

/-! ## Data model -/

/-- The `frequencies` object of a recommendation: the preflop tables carry the
keys `raise`, `call`, `fold`, the postflop buckets the keys `bet`, `check`,
`fold`. -/
inductive Frequencies where
  | raiseCallFold (raise call fold : Int)
  | betCheckFold (bet check fold : Int)
  deriving DecidableEq, Repr

/-- The three numbers of a `frequencies` object, in source order. -/
def Frequencies.values : Frequencies → List Int
  | .raiseCallFold r c f => [r, c, f]
  | .betCheckFold b c f => [b, c, f]

/-- A percentage distribution: three integers in `[0, 100]` that add up to 100. -/
def Frequencies.isDistribution (f : Frequencies) : Prop :=
  (∀ v ∈ f.values, 0 ≤ v ∧ v ≤ 100) ∧ f.values.sum = 100

instance (f : Frequencies) : Decidable f.isDistribution := by
  unfold Frequencies.isDistribution
  infer_instance

/-- One entry of the range table: `{ action: ..., frequencies: {...} }`. -/
structure Entry where
  action : String
  frequencies : Frequencies
  deriving DecidableEq, Repr

/-- The table of one position: hand key ↦ entry, own keys in source order. -/
abbrev PositionRange := List (String × Entry)

/-- The whole range table: position ↦ table of that position. -/
abbrev RangeTable := List (String × PositionRange)

/-- The argument of the engine. `stackSize` is destructured by the source but
never read. -/
structure Scenario where
  position : String
  holeCards : List String
  street : String
  board : List String
  stackSize : Nat
  deriving DecidableEq, Repr

/-- The object returned by the engine. A field read off a value that does not
have it is `undefined`, here `none`; the postflop path sets neither
`confidence` nor `solverType`. -/
structure Recommendation where
  action : Option String
  frequencies : Option Frequencies
  reasoning : String
  confidence : Option ℚ
  solverType : Option String
  deriving DecidableEq

/-- The fields of a `GTOSolver` instance. -/
structure GTOSolver where
  solverType : String
  solverPath : Option String
  isInitialized : Bool
  deriving DecidableEq, Repr

/-- What a call does.

* `value r`: it returns `r`.
* `typeError`: it throws a `TypeError` (a property read off `undefined`).
* `inheritedRange name`: the position named a member that the range table
  inherits from `Object.prototype`. The source then reads the hand string, its
  category and `default` off that built-in object of the host: it throws a
  `TypeError` when the object has none of them and otherwise returns a record
  made from whatever the property holds. The properties of the host's
  built-in objects are not part of the repository, so the embedding stops
  there and records the member's name. -/
inductive Outcome where
  | value (r : Recommendation)
  | typeError
  | inheritedRange (name : String)
  deriving DecidableEq

/-! ## Property reads -/

/-- Names of the members every object literal inherits from `Object.prototype`
(ECMAScript, Annex B included). Each of them is a function or an object, hence
truthy, and none of them has a property `action`, `frequencies` or
`reasoning`. -/
def objectPrototypeKeys : List String :=
  ["constructor", "hasOwnProperty", "isPrototypeOf", "propertyIsEnumerable",
   "toLocaleString", "toString", "valueOf", "__proto__",
   "__defineGetter__", "__defineSetter__", "__lookupGetter__", "__lookupSetter__"]

/-- The value of a property read `positionRange[key]`. -/
inductive HandValue where
  | undefined
  | entry (e : Entry)
  | inherited (name : String)
  deriving DecidableEq, Repr

/-- The value of a property read `preflopRanges[key]`. -/
inductive RangeValue where
  | undefined
  | range (r : PositionRange)
  | inherited (name : String)
  deriving DecidableEq, Repr

/-- The read `positionRange[key]`: own keys first, then `Object.prototype`. -/
def PositionRange.get (r : PositionRange) (key : String) : HandValue :=
  match r.lookup key with
  | some e => .entry e
  | none => if key ∈ objectPrototypeKeys then .inherited key else .undefined

/-- The read `preflopRanges[key]`: own keys first, then `Object.prototype`. -/
def RangeTable.get (t : RangeTable) (key : String) : RangeValue :=
  match t.lookup key with
  | some r => .range r
  | none => if key ∈ objectPrototypeKeys then .inherited key else .undefined

/-- Truthiness: only `undefined` is falsy among the values a read can give. -/
def HandValue.truthy : HandValue → Bool
  | .undefined => false
  | _ => true

/-- The operator `a || b` on the values of a read. -/
def HandValue.or (a b : HandValue) : HandValue :=
  if a.truthy then a else b

/-! ## The range table (`getPreflopRanges`) -/

/-- Shorthand for `{ action: a, frequencies: { raise: r, call: c, fold: f } }`. -/
def mkEntry (a : String) (r c f : Int) : Entry :=
  { action := a, frequencies := .raiseCallFold r c f }

/-- The object literal returned by `getPreflopRanges`, key by key. -/
def getPreflopRanges : RangeTable :=
  [ ("UTG",
      [ ("AsAh", mkEntry "RAISE 3x" 100 0 0),
        ("AsAd", mkEntry "RAISE 3x" 100 0 0),
        ("AsAc", mkEntry "RAISE 3x" 100 0 0),
        ("KsKh", mkEntry "RAISE 3x" 100 0 0),
        ("QsQh", mkEntry "RAISE 3x" 100 0 0),
        ("JsJh", mkEntry "RAISE 3x" 95 5 0),
        ("TsTh", mkEntry "RAISE 3x" 85 15 0),
        ("AsKs", mkEntry "RAISE 3x" 90 10 0),
        ("AsKh", mkEntry "RAISE 3x" 75 20 5),
        ("AsQs", mkEntry "RAISE 3x" 80 15 5),
        ("AsJs", mkEntry "RAISE 3x" 70 25 5),
        ("default", mkEntry "FOLD" 0 5 95) ]),
    ("MP",
      [ ("AsKh", mkEntry "RAISE 3x" 80 15 5),
        ("9s9h", mkEntry "RAISE 3x" 85 15 0),
        ("AsTs", mkEntry "RAISE 3x" 65 30 5),
        ("default", mkEntry "FOLD" 0 10 90) ]),
    ("CO",
      [ ("AsKh", mkEntry "RAISE 3x" 85 10 5),
        ("7s7h", mkEntry "RAISE 3x" 70 25 5),
        ("Ah9s", mkEntry "RAISE 2.5x" 60 35 5),
        ("default", mkEntry "FOLD" 0 15 85) ]),
    ("BTN",
      [ ("AsKh", mkEntry "RAISE 3x" 68 22 10),
        ("5s5h", mkEntry "RAISE 2.5x" 65 30 5),
        ("Kh9s", mkEntry "RAISE 2.5x" 45 40 15),
        ("default", mkEntry "FOLD" 0 20 80) ]),
    ("SB",
      [ ("AsKh", mkEntry "RAISE 3x" 75 20 5),
        ("default", mkEntry "FOLD" 0 25 75) ]),
    ("BB",
      [ ("AsKh", mkEntry "CALL" 25 70 5),
        ("default", mkEntry "CHECK/FOLD" 0 35 65) ]) ]

/-! ## Hand string and hand category -/

/-- The replacer of `handStr`: a suit symbol becomes its letter
(`suitMap[suit] || suit`); the regular expression `/[♠♥♦♣]/g` leaves every
other character alone. -/
def suitLetter (c : Char) : Char :=
  if c = '♠' then 's'
  else if c = '♥' then 'h'
  else if c = '♦' then 'd'
  else if c = '♣' then 'c'
  else c

/-- The hand string `holeCards.join('').replace(/[♠♥♦♣]/g, ...)`. -/
def handStr (holeCards : List String) : String :=
  String.mk ((String.join holeCards).data.map suitLetter)

/-- The character class `[AKQJT23456789]`. -/
def isRankChar (c : Char) : Bool :=
  c ∈ ['A', 'K', 'Q', 'J', 'T', '2', '3', '4', '5', '6', '7', '8', '9']

/-- The character class `[shdc]`. -/
def isSuitChar (c : Char) : Bool :=
  c ∈ ['s', 'h', 'd', 'c']

/-- The string `order` of the comparator in `getHandCategory`. -/
def rankOrder : List Char := "AKQJT98765432".data

/-- The method `order.indexOf(c)`: the index of the first occurrence, `-1` when
there is none. -/
def orderIndexOf (c : Char) : Int :=
  if c ∈ rankOrder then (rankOrder.indexOf c : Int) else -1

/-- The call `[rank1, rank2].sort(cmp)` with
`cmp(a, b) = order.indexOf(a) - order.indexOf(b)`: the two elements are
exchanged exactly when the comparator puts the first after the second. -/
def sortRanks (rank1 rank2 : Char) : Char × Char :=
  if orderIndexOf rank1 - orderIndexOf rank2 > 0 then (rank2, rank1) else (rank1, rank2)

/-- The method `getHandCategory(handStr)`. `ranks` and `suits` are the matches
of the two global regular expressions (`|| []` when there is none);
`suits[0] === suits[1]` compares two possibly missing elements. -/
def getHandCategory (handStr : String) : String :=
  let ranks := handStr.data.filter isRankChar
  let suits := handStr.data.filter isSuitChar
  match ranks with
  | [rank1, rank2] =>
    let suited : Bool := decide (suits.get? 0 = suits.get? 1)
    if rank1 = rank2 then String.mk [rank1, rank1]
    else
      let sortedRanks := sortRanks rank1 rank2
      String.mk [sortedRanks.1, sortedRanks.2, if suited then 's' else 'o']
  | _ => "unknown"

/-! ## The engine -/

/-- The method `formatRecommendation(recommendation, scenario)`. Reading
`.action` off `undefined` throws; a table entry has no `reasoning`, and a
member of `Object.prototype` has none of the three properties. -/
def formatRecommendation (self : GTOSolver) (recommendation : HandValue) : Outcome :=
  match recommendation with
  | .undefined => .typeError
  | .entry e =>
    .value { action := some e.action, frequencies := some e.frequencies,
             reasoning := "GTO optimal play", confidence := some (85 / 100),
             solverType := some self.solverType }
  | .inherited _ =>
    .value { action := none, frequencies := none,
             reasoning := "GTO optimal play", confidence := some (85 / 100),
             solverType := some self.solverType }

/-- The method `evaluateHandStrength(holeCards, board)`: `card[0]` is the first
character of a card (`undefined` for the empty string), and the result is one
of the literals 0.9, 0.7, 0.5, 0.3. -/
def evaluateHandStrength (holeCards board : List String) : ℚ :=
  let allCards := holeCards ++ board
  let ranks := allCards.map (fun card => card.data.head?)
  let hasAce : Bool := decide (some 'A' ∈ ranks)
  let hasKing : Bool := decide (some 'K' ∈ ranks)
  let hasQueen : Bool := decide (some 'Q' ∈ ranks)
  if hasAce && hasKing then 9 / 10
  else if hasAce || hasKing then 7 / 10
  else if hasQueen then 5 / 10
  else 3 / 10

/-- The threshold chain of `getPostflopRecommendation`, as a function of the
strength it compares. -/
def postflopBucket (handStrength : ℚ) : Recommendation :=
  if handStrength > 8 / 10 then
    { action := some "BET 75%", frequencies := some (.betCheckFold 85 15 0),
      reasoning := "Strong hand - bet for value", confidence := none, solverType := none }
  else if handStrength > 6 / 10 then
    { action := some "BET 50%", frequencies := some (.betCheckFold 60 40 0),
      reasoning := "Medium strength - mixed strategy", confidence := none, solverType := none }
  else if handStrength > 3 / 10 then
    { action := some "CHECK", frequencies := some (.betCheckFold 20 70 10),
      reasoning := "Marginal hand - mostly check", confidence := none, solverType := none }
  else
    { action := some "CHECK/FOLD", frequencies := some (.betCheckFold 5 30 65),
      reasoning := "Weak hand - check/fold", confidence := none, solverType := none }

/-- The method `getPostflopRecommendation(scenario)`. -/
def getPostflopRecommendation (scenario : Scenario) : Recommendation :=
  postflopBucket (evaluateHandStrength scenario.holeCards scenario.board)

/-- The preflop branch of `getBuiltinRecommendation` once `positionRange` is an
object of the table:
`positionRange[handStr] || positionRange[getHandCategory(handStr)] || positionRange['default']`,
then `formatRecommendation`. -/
def preflopLookup (self : GTOSolver) (positionRange : PositionRange) (hand : String) : Outcome :=
  let handRecommendation :=
    ((positionRange.get hand).or (positionRange.get (getHandCategory hand))).or
      (positionRange.get "default")
  formatRecommendation self handRecommendation

/-- The method `getBuiltinRecommendation(scenario)`. On the preflop street
`preflopRanges[position] || preflopRanges['default']` is read first; the table
has no own key `default` and inherits none, so for a position that is neither
an own key nor inherited that value is `undefined` and the next property read
throws. -/
def getBuiltinRecommendation (self : GTOSolver) (scenario : Scenario) : Outcome :=
  let hand := handStr scenario.holeCards
  let preflopRanges := getPreflopRanges
  if scenario.street = "PREFLOP" then
    match preflopRanges.get scenario.position with
    | .range positionRange => preflopLookup self positionRange hand
    | .inherited name => .inheritedRange name
    | .undefined =>
      match preflopRanges.get "default" with
      | .range positionRange => preflopLookup self positionRange hand
      | .inherited name => .inheritedRange name
      | .undefined => .typeError
  else
    .value (getPostflopRecommendation scenario)

/-- The method `getTexasSolverRecommendation(scenario)`. -/
def getTexasSolverRecommendation (self : GTOSolver) (scenario : Scenario) : Outcome :=
  getBuiltinRecommendation self scenario

/-- The method `getWASMRecommendation(scenario)`. -/
def getWASMRecommendation (self : GTOSolver) (scenario : Scenario) : Outcome :=
  getBuiltinRecommendation self scenario

/-- The method `initialize()`. The probe `which texassolver` belongs to the
host; `probe` is its trimmed output when it ran without error and printed
something, `none` otherwise. -/
def initializeSolver (probe : Option String) (self : GTOSolver) : GTOSolver :=
  match probe with
  | some path => { solverType := "texassolver", solverPath := some path, isInitialized := true }
  | none => { self with solverType := "builtin", isInitialized := true }

/-- The method `getRecommendation(scenario)`: the instance after the call and
what the returned promise settles to. -/
def getRecommendation (probe : Option String) (self : GTOSolver) (scenario : Scenario) :
    GTOSolver × Outcome :=
  let self := if !self.isInitialized then initializeSolver probe self else self
  if self.solverType = "texassolver" then (self, getTexasSolverRecommendation self scenario)
  else if self.solverType = "wasm" then (self, getWASMRecommendation self scenario)
  else (self, getBuiltinRecommendation self scenario)

/-! ## The card input of the renderer (`formatCardInput`) -/

/-- The character class `[AKQJT23456789SHDCshdc]`, whose complement the first
`replace` of `formatCardInput` deletes. -/
def isCardInputChar (c : Char) : Bool :=
  c ∈ "AKQJT23456789SHDCshdc".data

/-- The expression `suits[c] || c` of `formatCardInput`: `S`, `H`, `D`, `C`
become the suit symbols, every other character stays. -/
def suitSymbol (c : Char) : Char :=
  if c = 'S' then '♠'
  else if c = 'H' then '♥'
  else if c = 'D' then '♦'
  else if c = 'C' then '♣'
  else c

/-- The loop `for (let i = 0; i < value.length; i += 2)` of `formatCardInput`,
from the index `i` with the string `formatted` built so far; `fuel` bounds the
number of rounds. -/
def formatLoop (value : List Char) : Nat → Nat → List Char → List Char
  | 0, _, formatted => formatted
  | fuel + 1, i, formatted =>
    if i < value.length then
      let formatted :=
        if i + 1 < value.length then
          match value.get? i, value.get? (i + 1) with
          | some rank, some c => formatted ++ [rank, suitSymbol c]
          | _, _ => formatted
        else formatted
      formatLoop value fuel (i + 2) formatted
    else formatted

/-- The value `event.target.value.toUpperCase().replace(/[^...]/g, '')`.
`String.prototype.toUpperCase` belongs to the host and is a parameter. -/
def cleanValue (toUpperCase : String → String) (input : String) : List Char :=
  (toUpperCase input).data.filter isCardInputChar

/-- The function `formatCardInput(event)` of `src/renderer/renderer.js`, from
the content of the input field before the call to its content after it: the
field is assigned `formatted.slice(0, 6)` when at least two characters are
kept, and is left as it is otherwise. One round of the loop per character is
more fuel than the loop needs (`formatLoop_eq`). -/
def formatCardInput (toUpperCase : String → String) (input : String) : String :=
  let value := cleanValue toUpperCase input
  if value.length ≥ 2 then
    let formatted := formatLoop value value.length 0 []
    String.mk (formatted.take 6)
  else input

/-- The cards the loop of `formatCardInput` writes, pair by pair: the first
character of a pair, then the suit symbol of the second; a last single
character is dropped. -/
def formatPairs : List Char → List Char
  | rank :: c :: rest => rank :: suitSymbol c :: formatPairs rest
  | _ => []

/-! ## Notions of the specification -/

/-- Some card among the hole cards and the board begins with the character
`c`: the rank `c` is present. -/
def rankPresent (scenario : Scenario) (c : Char) : Prop :=
  ∃ card ∈ scenario.holeCards ++ scenario.board, card.data.head? = some c

instance (scenario : Scenario) (c : Char) : Decidable (rankPresent scenario c) := by
  unfold rankPresent
  infer_instance

/-! ## Concrete instances used in examples -/

/-- A preflop scenario: empty board, street `PREFLOP`, the renderer's initial
stack of 100 big blinds. -/
def preflopScenario (position : String) (holeCards : List String) : Scenario :=
  { position := position, holeCards := holeCards, street := "PREFLOP", board := [],
    stackSize := 100 }

/-- A flop scenario with the given hole cards and board. -/
def flopScenario (position : String) (holeCards board : List String) : Scenario :=
  { position := position, holeCards := holeCards, street := "FLOP", board := board,
    stackSize := 100 }

/-- The instance `new GTOSolver()` as the constructor leaves it. -/
def GTOSolver.new : GTOSolver :=
  { solverType := "builtin", solverPath := none, isInitialized := false }

/-- The method `toUpperCase()` on text made of ASCII characters: the letters
`a` to `z` become `A` to `Z`. -/
def asciiUpperCase (s : String) : String :=
  String.mk (s.data.map Char.toUpper)

/-! ## Auxiliary facts -/

theorem lookup_mem {α : Type} (k : String) (v : α) :
    ∀ l : List (String × α), l.lookup k = some v → (k, v) ∈ l := by
  intro l
  induction l with
  | nil => intro h; simp [List.lookup] at h
  | cons p l ih =>
    intro h
    obtain ⟨k1, v1⟩ := p
    by_cases hk : k = k1
    · subst hk
      simp [List.lookup] at h
      simp [h]
    · have hb : (k == k1) = false := by simpa using hk
      simp only [List.lookup, hb] at h
      exact List.mem_cons_of_mem _ (ih h)

theorem lookup_none_of_forall_ne {α : Type} (k : String) :
    ∀ l : List (String × α), (∀ p ∈ l, p.1 ≠ k) → l.lookup k = none := by
  intro l
  induction l with
  | nil => intro _; rfl
  | cons p l ih =>
    intro h
    obtain ⟨k1, v1⟩ := p
    have h1 : k1 ≠ k := h (k1, v1) (List.mem_cons_self _ _)
    have hb : (k == k1) = false := by simpa using (Ne.symm h1)
    simp only [List.lookup, hb]
    exact ih (fun p hp => h p (List.mem_cons_of_mem _ hp))

/-- Shape of a hand category: `unknown`, two characters, or three characters
the last of which is `s` or `o`. -/
theorem getHandCategory_shape (hand : String) :
    getHandCategory hand = "unknown" ∨
    (∃ a, getHandCategory hand = String.mk [a, a]) ∨
    (∃ a b c, (c = 's' ∨ c = 'o') ∧ getHandCategory hand = String.mk [a, b, c]) := by
  unfold getHandCategory
  simp only
  split
  · rename_i rank1 rank2 _
    split
    · exact Or.inr (Or.inl ⟨rank1, rfl⟩)
    · refine Or.inr (Or.inr ⟨_, _, _, ?_, rfl⟩)
      split <;> simp
  · exact Or.inl rfl

theorem getHandCategory_length (hand : String) :
    getHandCategory hand = "unknown" ∨ (getHandCategory hand).length = 2 ∨
      (getHandCategory hand).length = 3 := by
  rcases getHandCategory_shape hand with h | ⟨a, h⟩ | ⟨a, b, c, _, h⟩
  · exact Or.inl h
  · exact Or.inr (Or.inl (by rw [h]; rfl))
  · exact Or.inr (Or.inr (by rw [h]; rfl))

theorem table_keys :
    ∀ q ∈ getPreflopRanges, ∀ p ∈ q.2, p.1.length = 4 ∨ p.1 = "default" := by
  decide

theorem table_default :
    ∀ q ∈ getPreflopRanges, (q.2.lookup "default").isSome = true := by
  decide

theorem table_distribution :
    ∀ q ∈ getPreflopRanges, ∀ p ∈ q.2, p.2.frequencies.isDistribution := by
  decide

theorem inherited_keys_length : ∀ k ∈ objectPrototypeKeys, 7 ≤ k.length ∧ k ≠ "unknown" := by
  decide

theorem getHandCategory_not_inherited (hand : String) :
    getHandCategory hand ∉ objectPrototypeKeys := by
  intro hmem
  have hk := inherited_keys_length _ hmem
  rcases getHandCategory_length hand with h | h | h
  · exact hk.2 h
  · omega
  · omega

theorem lookup_getHandCategory (position : String) (positionRange : PositionRange)
    (hpos : getPreflopRanges.lookup position = some positionRange) (hand : String) :
    positionRange.lookup (getHandCategory hand) = none := by
  apply lookup_none_of_forall_ne
  intro p hp heq
  have hkey := table_keys _ (lookup_mem _ _ _ hpos) p hp
  rw [heq] at hkey
  rcases getHandCategory_length hand with h | h | h
  · rw [h] at hkey
    revert hkey
    decide
  · rcases hkey with hk | hk
    · omega
    · rw [hk] at h
      revert h
      decide
  · rcases hkey with hk | hk
    · omega
    · rw [hk] at h
      revert h
      decide

theorem lookup_default (position : String) (positionRange : PositionRange)
    (hpos : getPreflopRanges.lookup position = some positionRange) :
    ∃ d, positionRange.lookup "default" = some d := by
  have h := table_default _ (lookup_mem _ _ _ hpos)
  exact Option.isSome_iff_exists.mp h

theorem get_category_undefined (position : String) (positionRange : PositionRange)
    (hpos : getPreflopRanges.lookup position = some positionRange) (hand : String) :
    positionRange.get (getHandCategory hand) = .undefined := by
  unfold PositionRange.get
  rw [lookup_getHandCategory position positionRange hpos hand]
  simp [getHandCategory_not_inherited hand]

theorem preflopLookup_exact (self : GTOSolver) (positionRange : PositionRange) (hand : String)
    (e : Entry) (hkey : positionRange.lookup hand = some e) :
    preflopLookup self positionRange hand = formatRecommendation self (.entry e) := by
  simp [preflopLookup, PositionRange.get, hkey, HandValue.or, HandValue.truthy]

theorem preflopLookup_inherited (self : GTOSolver) (positionRange : PositionRange) (hand : String)
    (hkey : positionRange.lookup hand = none) (hin : hand ∈ objectPrototypeKeys) :
    preflopLookup self positionRange hand = formatRecommendation self (.inherited hand) := by
  simp [preflopLookup, PositionRange.get, hkey, hin, HandValue.or, HandValue.truthy]

theorem preflopLookup_default (self : GTOSolver) (position : String)
    (positionRange : PositionRange)
    (hpos : getPreflopRanges.lookup position = some positionRange) (hand : String) (d : Entry)
    (hkey : positionRange.lookup hand = none) (hin : hand ∉ objectPrototypeKeys)
    (hd : positionRange.lookup "default" = some d) :
    preflopLookup self positionRange hand = formatRecommendation self (.entry d) := by
  have hc := get_category_undefined position positionRange hpos hand
  have hh : positionRange.get hand = .undefined := by
    simp [PositionRange.get, hkey, hin]
  have hdd : positionRange.get "default" = .entry d := by
    simp [PositionRange.get, hd]
  simp [preflopLookup, hc, hh, hdd, HandValue.or, HandValue.truthy]

theorem getBuiltinRecommendation_preflop (self : GTOSolver) (scenario : Scenario)
    (positionRange : PositionRange) (hstreet : scenario.street = "PREFLOP")
    (hpos : getPreflopRanges.lookup scenario.position = some positionRange) :
    getBuiltinRecommendation self scenario =
      preflopLookup self positionRange (handStr scenario.holeCards) := by
  simp [getBuiltinRecommendation, hstreet, RangeTable.get, hpos]

theorem table_positions :
    ∀ q ∈ getPreflopRanges, q.1 ∈ ["UTG", "MP", "CO", "BTN", "SB", "BB"] := by
  decide

theorem rank_chars : ∀ c ∈ rankOrder, isRankChar c = true ∧ isSuitChar c = false := by
  decide

theorem suit_chars :
    ∀ c ∈ ['s', 'h', 'd', 'c'], isRankChar c = false ∧ isSuitChar c = true := by
  decide

theorem sortRanks_order :
    ∀ r1 ∈ rankOrder, ∀ r2 ∈ rankOrder, r1 ≠ r2 →
      sortRanks r1 r2 =
        if rankOrder.indexOf r1 < rankOrder.indexOf r2 then (r1, r2) else (r2, r1) := by
  decide

theorem evaluateHandStrength_eq (scenario : Scenario) :
    evaluateHandStrength scenario.holeCards scenario.board =
      if rankPresent scenario 'A' ∧ rankPresent scenario 'K' then 9 / 10
      else if rankPresent scenario 'A' ∨ rankPresent scenario 'K' then 7 / 10
      else if rankPresent scenario 'Q' then 5 / 10
      else 3 / 10 := by
  have hmem : ∀ c : Char,
      some c ∈ (scenario.holeCards ++ scenario.board).map (fun card => card.data.head?) ↔
        rankPresent scenario c := by
    intro c
    simp only [rankPresent, List.mem_map]
  unfold evaluateHandStrength
  simp only [Bool.and_eq_true, Bool.or_eq_true, decide_eq_true_eq, hmem]

theorem position_entry :
    ∀ position ∈ ["UTG", "MP", "CO", "BTN", "SB", "BB"],
      (getPreflopRanges.lookup position).isSome = true := by
  decide

theorem postflopBucket_distribution (s : ℚ) :
    ∃ f, (postflopBucket s).frequencies = some f ∧ f.isDistribution := by
  unfold postflopBucket
  split_ifs
  · exact ⟨_, rfl, by decide⟩
  · exact ⟨_, rfl, by decide⟩
  · exact ⟨_, rfl, by decide⟩
  · exact ⟨_, rfl, by decide⟩

theorem formatLoop_done (value : List Char) (fuel i : Nat) (formatted : List Char)
    (h : value.length ≤ i) : formatLoop value fuel i formatted = formatted := by
  cases fuel with
  | zero => rfl
  | succ fuel =>
    have h1 : ¬ i < value.length := by omega
    simp [formatLoop, h1]

theorem formatLoop_append (fuel : Nat) :
    ∀ (rest pre formatted : List Char), rest.length ≤ fuel →
      formatLoop (pre ++ rest) fuel pre.length formatted = formatted ++ formatPairs rest := by
  induction fuel with
  | zero =>
    intro rest pre formatted h
    have hrest : rest = [] := List.length_eq_zero.mp (by omega)
    subst hrest
    simp [formatLoop, formatPairs]
  | succ fuel ih =>
    intro rest pre formatted h
    match rest, h with
    | [], _ =>
      simp [formatLoop, formatPairs]
    | [a], _ =>
      have h1 : pre.length < (pre ++ [a]).length := by simp
      have h2 : ¬ pre.length + 1 < (pre ++ [a]).length := by simp
      rw [formatLoop, if_pos h1]
      simp only [h2, if_false]
      rw [formatLoop_done _ _ _ _ (by simp)]
      simp [formatPairs]
    | a :: b :: rest, h =>
      have h1 : pre.length < (pre ++ a :: b :: rest).length := by simp
      have h2 : pre.length + 1 < (pre ++ a :: b :: rest).length := by simp
      have g1 : (pre ++ a :: b :: rest).get? pre.length = some a := by
        rw [List.get?_eq_getElem?, List.getElem?_append_right (Nat.le_refl _)]
        simp
      have g2 : (pre ++ a :: b :: rest).get? (pre.length + 1) = some b := by
        rw [List.get?_eq_getElem?, List.getElem?_append_right (Nat.le_succ _)]
        simp
      rw [formatLoop, if_pos h1]
      simp only [h2, if_true, g1, g2]
      have hsplit : pre ++ a :: b :: rest = (pre ++ [a, b]) ++ rest := by simp
      have hlen : pre.length + 2 = (pre ++ [a, b]).length := by simp
      rw [hsplit, hlen, ih rest (pre ++ [a, b]) _ (by simp at h; omega)]
      simp [formatPairs]

theorem formatLoop_eq (value : List Char) :
    formatLoop value value.length 0 [] = formatPairs value := by
  have h := formatLoop_append value.length value [] [] (Nat.le_refl _)
  simpa using h

theorem formatCardInput_eq (toUpperCase : String → String) (input : String) :
    formatCardInput toUpperCase input =
      if (cleanValue toUpperCase input).length ≥ 2 then
        String.mk ((formatPairs (cleanValue toUpperCase input)).take 6)
      else input := by
  unfold formatCardInput
  simp only [formatLoop_eq]

/-- On the preflop street, for a position that is a key of the range table and
a hand string that is neither a key of the position's entry nor the name of a
member inherited from `Object.prototype`, the call returns the recommendation
made of the position's `default` entry. -/
theorem default_of_not_inherited (self : GTOSolver) (scenario : Scenario)
    (positionRange : PositionRange)
    (hstreet : scenario.street = "PREFLOP")
    (hpos : getPreflopRanges.lookup scenario.position = some positionRange)
    (hkey : positionRange.lookup (handStr scenario.holeCards) = none)
    (hin : handStr scenario.holeCards ∉ objectPrototypeKeys) :
    ∃ d, positionRange.lookup "default" = some d ∧
      getBuiltinRecommendation self scenario =
        .value { action := some d.action, frequencies := some d.frequencies,
                 reasoning := "GTO optimal play", confidence := some (85 / 100),
                 solverType := some self.solverType } := by
  obtain ⟨d, hd⟩ := lookup_default _ positionRange hpos
  refine ⟨d, hd, ?_⟩
  rw [getBuiltinRecommendation_preflop self scenario positionRange hstreet hpos,
    preflopLookup_default self _ positionRange hpos _ d hkey hin hd]
  rfl

theorem suitLetter_rank : ∀ c ∈ rankOrder, suitLetter c = c := by
  decide

/-- The hand string of two cards, each a rank character followed by a suit
symbol or a suit letter: the two ranks, each followed by its suit letter. -/
theorem handStr_wellFormed (r1 s1 r2 s2 : Char) (hr1 : r1 ∈ rankOrder) (hr2 : r2 ∈ rankOrder) :
    handStr [String.mk [r1, s1], String.mk [r2, s2]] =
      String.mk [r1, suitLetter s1, r2, suitLetter s2] := by
  have h1 := suitLetter_rank r1 hr1
  have h2 := suitLetter_rank r2 hr2
  simp [handStr, String.join, h1, h2]

theorem four_characters_not_inherited (a b c d : Char) :
    String.mk [a, b, c, d] ∉ objectPrototypeKeys := by
  intro hmem
  have h := (inherited_keys_length _ hmem).1
  simp [String.length] at h

/-- For every scenario whose position is a key of the range table and whose
hand string (the hole cards joined, suit symbols mapped to letters) is not, on
the preflop street, the name of a member inherited from `Object.prototype`,
the call returns a recommendation whose three frequency values are integers in
`[0, 100]` that add up to 100. -/
theorem frequencies_distribution_of_not_inherited (self : GTOSolver) (scenario : Scenario)
    (hpos : scenario.position ∈ ["UTG", "MP", "CO", "BTN", "SB", "BB"])
    (hin : scenario.street = "PREFLOP" → handStr scenario.holeCards ∉ objectPrototypeKeys) :
    ∃ r f, getBuiltinRecommendation self scenario = .value r ∧
      r.frequencies = some f ∧ f.isDistribution := by
  by_cases hstreet : scenario.street = "PREFLOP"
  · obtain ⟨positionRange, hrange⟩ := Option.isSome_iff_exists.mp (position_entry _ hpos)
    have hq := lookup_mem _ _ _ hrange
    have hvalue : ∀ e : Entry, (k : String) → positionRange.lookup k = some e →
        ∃ r f, formatRecommendation self (.entry e) = .value r ∧
          r.frequencies = some f ∧ f.isDistribution := by
      intro e k hk
      exact ⟨_, e.frequencies, rfl, rfl, table_distribution _ hq _ (lookup_mem _ _ _ hk)⟩
    rw [getBuiltinRecommendation_preflop self scenario positionRange hstreet hrange]
    cases hkey : positionRange.lookup (handStr scenario.holeCards) with
    | some e =>
      rw [preflopLookup_exact self positionRange _ e hkey]
      exact hvalue e _ hkey
    | none =>
      obtain ⟨d, hd⟩ := lookup_default _ positionRange hrange
      rw [preflopLookup_default self _ positionRange hrange _ d hkey (hin hstreet) hd]
      exact hvalue d _ hd
  · obtain ⟨f, hf, hdist⟩ :=
      postflopBucket_distribution (evaluateHandStrength scenario.holeCards scenario.board)
    refine ⟨_, f, ?_, hf, hdist⟩
    simp [getBuiltinRecommendation, hstreet, getPostflopRecommendation]

/-! ## Properties of the specification -/

/-- C1. Exact match takes precedence: on the preflop street, for a position
that is a key of the range table and hole cards whose hand string is a key of
that position's entry, `getBuiltinRecommendation` returns the recommendation
carrying exactly the action and the frequencies of that entry. -/
theorem exact_match_takes_precedence (self : GTOSolver) (scenario : Scenario)
    (positionRange : PositionRange) (e : Entry)
    (hstreet : scenario.street = "PREFLOP")
    (hpos : getPreflopRanges.lookup scenario.position = some positionRange)
    (hkey : positionRange.lookup (handStr scenario.holeCards) = some e) :
    getBuiltinRecommendation self scenario =
      .value { action := some e.action, frequencies := some e.frequencies,
               reasoning := "GTO optimal play", confidence := some (85 / 100),
               solverType := some self.solverType } := by
  rw [getBuiltinRecommendation_preflop self scenario positionRange hstreet hpos,
    preflopLookup_exact self positionRange _ e hkey]
  rfl

/-- C1, the two examples of the specification: BTN with A♠ K♥ gives `RAISE 3x`
with 68/22/10, UTG with J♠ J♥ gives `RAISE 3x` with 95/5/0. -/
theorem exact_match_witness :
    getBuiltinRecommendation GTOSolver.new (preflopScenario "BTN" ["A♠", "K♥"]) =
      .value { action := some "RAISE 3x", frequencies := some (.raiseCallFold 68 22 10),
               reasoning := "GTO optimal play", confidence := some (85 / 100),
               solverType := some "builtin" } ∧
    getBuiltinRecommendation GTOSolver.new (preflopScenario "UTG" ["J♠", "J♥"]) =
      .value { action := some "RAISE 3x", frequencies := some (.raiseCallFold 95 5 0),
               reasoning := "GTO optimal play", confidence := some (85 / 100),
               solverType := some "builtin" } :=
  ⟨exact_match_takes_precedence GTOSolver.new (preflopScenario "BTN" ["A♠", "K♥"]) _
      (mkEntry "RAISE 3x" 68 22 10) rfl rfl rfl,
   exact_match_takes_precedence GTOSolver.new (preflopScenario "UTG" ["J♠", "J♥"]) _
      (mkEntry "RAISE 3x" 95 5 0) rfl rfl rfl⟩

/-- C2. Default fallback: on the preflop street, for a position that is a key
of the range table and two hole cards, each a rank of `AKQJT98765432` followed
by a suit (a suit symbol or its letter), if neither the hand key of the two
cards nor its hand category is a key of the position's entry, then
`getBuiltinRecommendation` returns the recommendation carrying exactly the
action and the frequencies of the position's `default` entry. -/
theorem default_fallback (self : GTOSolver) (scenario : Scenario)
    (positionRange : PositionRange) (r1 s1 r2 s2 : Char)
    (hr1 : r1 ∈ "AKQJT98765432".data) (hr2 : r2 ∈ "AKQJT98765432".data)
    (_hs1 : s1 ∈ ['♠', '♥', '♦', '♣', 's', 'h', 'd', 'c'])
    (_hs2 : s2 ∈ ['♠', '♥', '♦', '♣', 's', 'h', 'd', 'c'])
    (hcards : scenario.holeCards = [String.mk [r1, s1], String.mk [r2, s2]])
    (hstreet : scenario.street = "PREFLOP")
    (hpos : getPreflopRanges.lookup scenario.position = some positionRange)
    (hkey : positionRange.lookup (handStr scenario.holeCards) = none)
    (_hcat : positionRange.lookup (getHandCategory (handStr scenario.holeCards)) = none) :
    handStr scenario.holeCards = String.mk [r1, suitLetter s1, r2, suitLetter s2] ∧
    ∃ d, positionRange.lookup "default" = some d ∧
      getBuiltinRecommendation self scenario =
        .value { action := some d.action, frequencies := some d.frequencies,
                 reasoning := "GTO optimal play", confidence := some (85 / 100),
                 solverType := some self.solverType } := by
  have hhand : handStr scenario.holeCards =
      String.mk [r1, suitLetter s1, r2, suitLetter s2] := by
    rw [hcards]
    exact handStr_wellFormed r1 s1 r2 s2 hr1 hr2
  have hin : handStr scenario.holeCards ∉ objectPrototypeKeys := by
    rw [hhand]
    exact four_characters_not_inherited _ _ _ _
  exact ⟨hhand, default_of_not_inherited self scenario positionRange hstreet hpos hkey hin⟩

/-- C2, the example of the specification: UTG with 2♠ 7♥ has the hand key
`2s7h` and falls through to the `default` entry of UTG, `FOLD` with 0/5/95. -/
theorem default_fallback_witness :
    handStr ["2♠", "7♥"] = "2s7h" ∧
    getBuiltinRecommendation GTOSolver.new (preflopScenario "UTG" ["2♠", "7♥"]) =
      .value { action := some "FOLD", frequencies := some (.raiseCallFold 0 5 95),
               reasoning := "GTO optimal play", confidence := some (85 / 100),
               solverType := some "builtin" } := by
  obtain ⟨hhand, d, hd, h⟩ := default_fallback GTOSolver.new
    (preflopScenario "UTG" ["2♠", "7♥"]) _ '2' '♠' '7' '♥'
    (by decide) (by decide) (by decide) (by decide) rfl rfl rfl rfl rfl
  have hdef : d = mkEntry "FOLD" 0 5 95 := Option.some.inj (hd.symm.trans rfl)
  subst hdef
  exact ⟨hhand.trans (by decide), h⟩

/-- C3, the failing input. At BTN the hole cards A♠ K♥ give the exact entry
`RAISE 3x` with 68/22/10, the same two cards in the other order give the
`default` entry `FOLD` with 0/20/80, although both orders have the same hand
category `AKo`. -/
theorem hole_card_order_changes_recommendation :
    getBuiltinRecommendation GTOSolver.new (preflopScenario "BTN" ["A♠", "K♥"]) =
      .value { action := some "RAISE 3x", frequencies := some (.raiseCallFold 68 22 10),
               reasoning := "GTO optimal play", confidence := some (85 / 100),
               solverType := some "builtin" } ∧
    getBuiltinRecommendation GTOSolver.new (preflopScenario "BTN" ["K♥", "A♠"]) =
      .value { action := some "FOLD", frequencies := some (.raiseCallFold 0 20 80),
               reasoning := "GTO optimal play", confidence := some (85 / 100),
               solverType := some "builtin" } ∧
    getHandCategory (handStr ["A♠", "K♥"]) = "AKo" ∧
    getHandCategory (handStr ["K♥", "A♠"]) = "AKo" :=
  ⟨rfl, rfl, by decide, by decide⟩

/-- C4, what the code does. On the preflop street, for a position that is
neither one of the six keys of the range table nor the name of a member
inherited from `Object.prototype`, `getBuiltinRecommendation` throws a
`TypeError` whatever the hole cards are: the table has no top-level `default`,
so `positionRange` is `undefined`. -/
theorem unrecognized_position_throws (self : GTOSolver) (scenario : Scenario)
    (hstreet : scenario.street = "PREFLOP")
    (hpos : scenario.position ∉ ["UTG", "MP", "CO", "BTN", "SB", "BB"])
    (hin : scenario.position ∉ objectPrototypeKeys) :
    getBuiltinRecommendation self scenario = .typeError := by
  have hnone : getPreflopRanges.lookup scenario.position = none := by
    apply lookup_none_of_forall_ne
    intro q hq heq
    exact hpos (heq ▸ table_positions q hq)
  have hdef : getPreflopRanges.lookup "default" = none := by decide
  have hdin : "default" ∉ objectPrototypeKeys := by decide
  simp [getBuiltinRecommendation, hstreet, RangeTable.get, hnone, hin, hdef, hdin]

/-- C4, the failing input: position `XX` with A♠ K♥ throws. -/
theorem unrecognized_position_witness :
    getBuiltinRecommendation GTOSolver.new (preflopScenario "XX" ["A♠", "K♥"]) = .typeError :=
  unrecognized_position_throws GTOSolver.new (preflopScenario "XX" ["A♠", "K♥"]) rfl
    (by decide) (by decide)

/-- C5. For two cards with ranks among `AKQJT98765432` and suit letters among
`s`, `h`, `d`, `c`, the category of the hand string `r1 s1 r2 s2` is `r1 r1`
when the ranks are equal, and otherwise the two ranks, the one that occurs
earlier in `AKQJT98765432` first, followed by `s` when the suits are equal and
by `o` when they differ. -/
theorem getHandCategory_wellFormed (r1 s1 r2 s2 : Char)
    (hr1 : r1 ∈ "AKQJT98765432".data) (hr2 : r2 ∈ "AKQJT98765432".data)
    (hs1 : s1 ∈ ['s', 'h', 'd', 'c']) (hs2 : s2 ∈ ['s', 'h', 'd', 'c']) :
    getHandCategory (String.mk [r1, s1, r2, s2]) =
      if r1 = r2 then String.mk [r1, r1]
      else if "AKQJT98765432".data.indexOf r1 < "AKQJT98765432".data.indexOf r2 then
        String.mk [r1, r2, if s1 = s2 then 's' else 'o']
      else String.mk [r2, r1, if s1 = s2 then 's' else 'o'] := by
  have h1 := rank_chars r1 hr1
  have h2 := rank_chars r2 hr2
  have h3 := suit_chars s1 hs1
  have h4 := suit_chars s2 hs2
  have hranks : [r1, s1, r2, s2].filter isRankChar = [r1, r2] := by
    simp [List.filter, h1.1, h2.1, h3.1, h4.1]
  have hsuits : [r1, s1, r2, s2].filter isSuitChar = [s1, s2] := by
    simp [List.filter, h1.2, h2.2, h3.2, h4.2]
  unfold getHandCategory
  simp only [hranks, hsuits]
  by_cases hr : r1 = r2
  · simp [hr]
  · have hsort := sortRanks_order r1 hr1 r2 hr2 hr
    simp only [rankOrder] at hsort
    simp only [hr, if_false, hsort]
    by_cases hlt : "AKQJT98765432".data.indexOf r1 < "AKQJT98765432".data.indexOf r2
    · by_cases hs : s1 = s2 <;> simp [hlt, hs]
    · by_cases hs : s1 = s2 <;> simp [hlt, hs]

/-- C5, the examples: A♠ J♠ and J♠ A♠ both give `AJs`, J♠ J♥ gives `JJ`. -/
theorem getHandCategory_witness :
    getHandCategory (String.mk ['A', 's', 'J', 's']) = "AJs" ∧
    getHandCategory (String.mk ['J', 's', 'A', 's']) = "AJs" ∧
    getHandCategory (String.mk ['J', 's', 'J', 'h']) = "JJ" :=
  ⟨(getHandCategory_wellFormed 'A' 's' 'J' 's' (by decide) (by decide) (by decide)
      (by decide)).trans (by decide),
   (getHandCategory_wellFormed 'J' 's' 'A' 's' (by decide) (by decide) (by decide)
      (by decide)).trans (by decide),
   (getHandCategory_wellFormed 'J' 's' 'J' 'h' (by decide) (by decide) (by decide)
      (by decide)).trans (by decide)⟩

/-- C6. On every street other than `PREFLOP`, `getBuiltinRecommendation`
returns `BET 75%` with 85/15/0 when both an Ace and a King are present among
the first characters of the hole cards and the board, `BET 50%` with 60/40/0
when exactly one of them is, `CHECK` with 20/70/10 when a Queen is present and
neither Ace nor King, and `CHECK/FOLD` with 5/30/65 otherwise. -/
theorem postflop_rank_presence (self : GTOSolver) (scenario : Scenario)
    (hstreet : scenario.street ≠ "PREFLOP") :
    (rankPresent scenario 'A' ∧ rankPresent scenario 'K' →
      getBuiltinRecommendation self scenario =
        .value { action := some "BET 75%", frequencies := some (.betCheckFold 85 15 0),
                 reasoning := "Strong hand - bet for value", confidence := none,
                 solverType := none }) ∧
    ((rankPresent scenario 'A' ∧ ¬ rankPresent scenario 'K') ∨
        (¬ rankPresent scenario 'A' ∧ rankPresent scenario 'K') →
      getBuiltinRecommendation self scenario =
        .value { action := some "BET 50%", frequencies := some (.betCheckFold 60 40 0),
                 reasoning := "Medium strength - mixed strategy", confidence := none,
                 solverType := none }) ∧
    (rankPresent scenario 'Q' ∧ ¬ rankPresent scenario 'A' ∧ ¬ rankPresent scenario 'K' →
      getBuiltinRecommendation self scenario =
        .value { action := some "CHECK", frequencies := some (.betCheckFold 20 70 10),
                 reasoning := "Marginal hand - mostly check", confidence := none,
                 solverType := none }) ∧
    (¬ rankPresent scenario 'Q' ∧ ¬ rankPresent scenario 'A' ∧ ¬ rankPresent scenario 'K' →
      getBuiltinRecommendation self scenario =
        .value { action := some "CHECK/FOLD", frequencies := some (.betCheckFold 5 30 65),
                 reasoning := "Weak hand - check/fold", confidence := none,
                 solverType := none }) := by
  have hb : getBuiltinRecommendation self scenario =
      .value (postflopBucket (evaluateHandStrength scenario.holeCards scenario.board)) := by
    simp [getBuiltinRecommendation, hstreet, getPostflopRecommendation]
  rw [hb, evaluateHandStrength_eq]
  refine ⟨?_, ?_, ?_, ?_⟩
  · intro h
    rw [if_pos h]
    unfold postflopBucket
    norm_num
  · intro h
    have h1 : ¬ (rankPresent scenario 'A' ∧ rankPresent scenario 'K') := by tauto
    have h2 : rankPresent scenario 'A' ∨ rankPresent scenario 'K' := by tauto
    rw [if_neg h1, if_pos h2]
    unfold postflopBucket
    norm_num
  · intro h
    have h1 : ¬ (rankPresent scenario 'A' ∧ rankPresent scenario 'K') := by tauto
    have h2 : ¬ (rankPresent scenario 'A' ∨ rankPresent scenario 'K') := by tauto
    rw [if_neg h1, if_neg h2, if_pos h.1]
    unfold postflopBucket
    norm_num
  · intro h
    have h1 : ¬ (rankPresent scenario 'A' ∧ rankPresent scenario 'K') := by tauto
    have h2 : ¬ (rankPresent scenario 'A' ∨ rankPresent scenario 'K') := by tauto
    rw [if_neg h1, if_neg h2, if_neg h.1]
    unfold postflopBucket
    norm_num

/-- C6, the example of the specification: an Ace in the hole cards and a King
on the board give `BET 75%` with 85/15/0. -/
theorem postflop_rank_presence_witness :
    getBuiltinRecommendation GTOSolver.new
        (flopScenario "BTN" ["A♠", "7♦"] ["K♥", "2♣", "9♠"]) =
      .value { action := some "BET 75%", frequencies := some (.betCheckFold 85 15 0),
               reasoning := "Strong hand - bet for value", confidence := none,
               solverType := none } :=
  (postflop_rank_presence GTOSolver.new (flopScenario "BTN" ["A♠", "7♦"] ["K♥", "2♣", "9♠"])
    (by decide)).1 (by decide)

/-- C7. The threshold chain of `getPostflopRecommendation` maps a strength `s`
to `BET 75%` exactly when `s > 0.8`, to `BET 50%` exactly when
`0.6 < s ≤ 0.8`, to `CHECK` exactly when `0.3 < s ≤ 0.6` and to `CHECK/FOLD`
exactly when `s ≤ 0.3`; at the boundaries, 0.8 gives `BET 50%`, 0.6 gives
`CHECK` and 0.3 gives `CHECK/FOLD`. -/
theorem postflop_thresholds (s : ℚ) :
    ((postflopBucket s).action = some "BET 75%" ↔ s > 8 / 10) ∧
    ((postflopBucket s).action = some "BET 50%" ↔ 6 / 10 < s ∧ s ≤ 8 / 10) ∧
    ((postflopBucket s).action = some "CHECK" ↔ 3 / 10 < s ∧ s ≤ 6 / 10) ∧
    ((postflopBucket s).action = some "CHECK/FOLD" ↔ s ≤ 3 / 10) ∧
    (postflopBucket (8 / 10)).action = some "BET 50%" ∧
    (postflopBucket (6 / 10)).action = some "CHECK" ∧
    (postflopBucket (3 / 10)).action = some "CHECK/FOLD" := by
  have e1 : ("BET 75%" = "BET 50%") = False := by decide
  have e2 : ("BET 75%" = "CHECK") = False := by decide
  have e3 : ("BET 75%" = "CHECK/FOLD") = False := by decide
  have e4 : ("BET 50%" = "BET 75%") = False := by decide
  have e5 : ("BET 50%" = "CHECK") = False := by decide
  have e6 : ("BET 50%" = "CHECK/FOLD") = False := by decide
  have e7 : ("CHECK" = "BET 75%") = False := by decide
  have e8 : ("CHECK" = "BET 50%") = False := by decide
  have e9 : ("CHECK" = "CHECK/FOLD") = False := by decide
  have e10 : ("CHECK/FOLD" = "BET 75%") = False := by decide
  have e11 : ("CHECK/FOLD" = "BET 50%") = False := by decide
  have e12 : ("CHECK/FOLD" = "CHECK") = False := by decide
  refine ⟨?_, ?_, ?_, ?_, ?_, ?_, ?_⟩
  · unfold postflopBucket
    split_ifs with h1 h2 h3 <;>
      simp only [Option.some.injEq, e4, e7, e10, false_iff, true_iff, gt_iff_lt] <;>
      exact h1
  · unfold postflopBucket
    split_ifs with h1 h2 h3 <;>
      simp only [Option.some.injEq, e1, e8, e11, false_iff, true_iff, not_and, not_le] <;>
      first | (intro _; linarith) | (constructor <;> linarith)
  · unfold postflopBucket
    split_ifs with h1 h2 h3 <;>
      simp only [Option.some.injEq, e2, e5, e12, false_iff, true_iff, not_and, not_le] <;>
      first | (intro _; linarith) | (constructor <;> linarith)
  · unfold postflopBucket
    split_ifs with h1 h2 h3 <;>
      simp only [Option.some.injEq, e3, e6, e9, false_iff, true_iff, not_le] <;>
      linarith
  · unfold postflopBucket
    norm_num
  · unfold postflopBucket
    norm_num
  · unfold postflopBucket
    norm_num

/-- C8, the failing input. At UTG, a position of the range table, the hole
cards `to` and `String` make the hand string `toString`; the call returns, and
the recommendation it returns has no frequencies at all:
`positionRange['toString']` is the inherited `Object.prototype.toString`,
which is truthy and ends the chain before `positionRange['default']`. -/
theorem inherited_hand_without_frequencies :
    "UTG" ∈ ["UTG", "MP", "CO", "BTN", "SB", "BB"] ∧
    handStr ["to", "String"] = "toString" ∧
    getBuiltinRecommendation GTOSolver.new (preflopScenario "UTG" ["to", "String"]) =
      .value { action := none, frequencies := none,
               reasoning := "GTO optimal play", confidence := some (85 / 100),
               solverType := some "builtin" } :=
  ⟨by decide, by decide, rfl⟩

/-- C9. For an initialized instance, whatever its `solverType`,
`getRecommendation` leaves the instance as it is and settles to exactly what
`getBuiltinRecommendation` gives on the same instance and scenario, a thrown
error included. -/
theorem getRecommendation_passthrough (probe : Option String) (self : GTOSolver)
    (scenario : Scenario) (hinit : self.isInitialized = true) :
    getRecommendation probe self scenario = (self, getBuiltinRecommendation self scenario) := by
  unfold getRecommendation getTexasSolverRecommendation getWASMRecommendation
  simp only [hinit, Bool.not_true, Bool.false_eq_true, if_false]
  split_ifs <;> rfl

/-- C9, instances: an initialized `texassolver` instance returns the builtin
recommendation for BTN with A♠ K♥, and an initialized `wasm` instance throws on
the unrecognized position `XX` as the builtin path does. -/
theorem getRecommendation_passthrough_witness :
    getRecommendation none
        { solverType := "texassolver", solverPath := some "/usr/bin/texassolver",
          isInitialized := true }
        (preflopScenario "BTN" ["A♠", "K♥"]) =
      ({ solverType := "texassolver", solverPath := some "/usr/bin/texassolver",
         isInitialized := true },
       .value { action := some "RAISE 3x", frequencies := some (.raiseCallFold 68 22 10),
                reasoning := "GTO optimal play", confidence := some (85 / 100),
                solverType := some "texassolver" }) ∧
    getRecommendation none
        { solverType := "wasm", solverPath := none, isInitialized := true }
        (preflopScenario "XX" ["A♠", "K♥"]) =
      ({ solverType := "wasm", solverPath := none, isInitialized := true }, .typeError) :=
  ⟨getRecommendation_passthrough none _ (preflopScenario "BTN" ["A♠", "K♥"]) rfl,
   getRecommendation_passthrough none _ (preflopScenario "XX" ["A♠", "K♥"]) rfl⟩

/-- C10, the failing input. At UTG the hand string `valueOf` is not a key of
the entry and its category `unknown` is not a key either, yet the call does
not return the `default` entry (`FOLD` with 0/5/95) but a recommendation
without action and without frequencies: `positionRange['valueOf']` is the
inherited `Object.prototype.valueOf`, which is truthy and ends the chain
before `positionRange['default']`. -/
theorem inherited_hand_misses_default :
    ∃ positionRange, getPreflopRanges.lookup "UTG" = some positionRange ∧
      positionRange.lookup (handStr ["valueOf"]) = none ∧
      getHandCategory (handStr ["valueOf"]) = "unknown" ∧
      positionRange.lookup (getHandCategory (handStr ["valueOf"])) = none ∧
      positionRange.lookup "default" = some (mkEntry "FOLD" 0 5 95) ∧
      getBuiltinRecommendation GTOSolver.new (preflopScenario "UTG" ["valueOf"]) =
        .value { action := none, frequencies := none,
                 reasoning := "GTO optimal play", confidence := some (85 / 100),
                 solverType := some "builtin" } :=
  ⟨_, rfl, rfl, by decide, rfl, rfl, rfl⟩

/-- C11, what the code does. Whenever at least six characters of the class
`AKQJT23456789SHDCshdc` are left of the upper-cased input, `formatCardInput`
leaves six characters in the field, the first three cards: each the first
character of a pair followed by the suit symbol of the second. The slice
`formatted.slice(0, 6)` keeps three cards, not the two its comment announces. -/
theorem formatCardInput_keeps_three_cards (toUpperCase : String → String) (input : String)
    (hlen : 6 ≤ (cleanValue toUpperCase input).length) :
    (formatCardInput toUpperCase input).length = 6 ∧
    ∃ r1 c1 r2 c2 r3 c3 rest,
      cleanValue toUpperCase input = r1 :: c1 :: r2 :: c2 :: r3 :: c3 :: rest ∧
      formatCardInput toUpperCase input =
        String.mk [r1, suitSymbol c1, r2, suitSymbol c2, r3, suitSymbol c3] := by
  have h2 : (cleanValue toUpperCase input).length ≥ 2 := by omega
  rw [formatCardInput_eq, if_pos h2]
  match hv : cleanValue toUpperCase input, hlen with
  | r1 :: c1 :: r2 :: c2 :: r3 :: c3 :: rest, _ =>
    refine ⟨?_, r1, c1, r2, c2, r3, c3, rest, rfl, ?_⟩
    · simp [formatPairs, String.length]
    · simp [formatPairs]

/-- C11, the failing input: the field content `askhqd` becomes `A♠K♥Q♦`, six
characters, three cards. -/
theorem formatCardInput_three_cards_witness :
    6 ≤ (cleanValue asciiUpperCase "askhqd").length ∧
    (formatCardInput asciiUpperCase "askhqd").length = 6 ∧
    formatCardInput asciiUpperCase "askhqd" = "A♠K♥Q♦" :=
  ⟨by decide, (formatCardInput_keeps_three_cards asciiUpperCase "askhqd" (by decide)).1,
    by decide⟩

end EZpoker
